import Mathlib

/-!
The stout isolation daemon: connection dispatch loop and Porto execution engine.

A shallow embedding of `isolate/conn_handler.go` (the per-connection read loop
`ConnectionHandler.HandleConn`) and of `isolate/porto/box.go` (`Box.waitLoop`,
`Box.appLayerName`, `Box.Spool`, `Box.Spawn`), followed by theorems about them.

Conventions of the embedding:

* Go maps are total functions into `Option`; `delete` and assignment are
  pointwise updates.  Iteration order is never used by the embedded code.
* Calls into collaborators that live outside the two source files (the
  Dispatcher implementations, the Porto API, the registry client, the blob
  repository, the semaphore) are outcomes supplied by an environment record,
  and every call that the code makes is recorded in an event list, in program
  order.
* Go `int` values are only compared, never computed with, so they are `Int`.
  The metric counters are 64-bit signed values: every update wraps (`int64`).
-/

namespace Stout

/-! ## isolate/conn_handler.go -/

/-- The protocol envelope `message`: logical channel, message type and the
arguments, which the connection handler never inspects. -/
structure message where
  Channel : Int
  Number : Int
  Args : List String
deriving DecidableEq, Repr

/-- What `decoder.Decode` can fail with: `io.EOF` or any other error. -/
inductive DecodeError where
  | EOF
  | malformed
deriving DecidableEq, Repr

/-- The fields of `ConnectionHandler` that `HandleConn` reads or writes: the
session table `map[int]Dispatcher` and `highestChannel`.  `D` is the type of
Dispatcher values. -/
structure ConnectionHandler (D : Type) where
  session : Int → Option D
  highestChannel : Int

/-- The handler built by `newConnectionHandler`: an empty session table and
`highestChannel: 0`. -/
def newConnectionHandler (D : Type) : ConnectionHandler D :=
  { session := fun _ => none, highestChannel := 0 }

/-- What one iteration of the read loop does that is visible outside it. -/
inductive ConnEvent (D : Type) where
  /-- line 108: the envelope is logged as revoked and skipped -/
  | revoked (msg : message)
  /-- lines 113-116: a Downstream and a fresh Dispatcher are built for the channel -/
  | created (channel : Int)
  /-- line 119: `Handle` is called on the dispatcher with the envelope -/
  | handled (dispatcher : D) (msg : message)
deriving DecidableEq, Repr

/-- Go `delete(m, k)`. -/
def mapDelete {K V : Type} [DecidableEq K] (m : K → Option V) (k : K) : K → Option V :=
  fun x => if x = k then none else m x

/-- Go `m[k] = v`. -/
def mapStore {K V : Type} [DecidableEq K] (m : K → Option V) (k : K) (v : V) : K → Option V :=
  fun x => if x = k then some v else m x

section ConnHandler

variable {D E : Type}

/-- Lines 119-129 of `HandleConn`: call `Handle` and store or delete the
channel.  `Handle` returns the pair `(Dispatcher, error)` of the Go method; a
nil Dispatcher or a nil error is `none`.  The error is tested first. -/
def dispatch (Handle : D → message → Option D × Option E)
    (h : ConnectionHandler D) (dispatcher : D) (msg : message) :
    ConnectionHandler D × List (ConnEvent D) :=
  match Handle dispatcher msg with
  | (_, some _) =>
    ({ h with session := mapDelete h.session msg.Channel }, [ConnEvent.handled dispatcher msg])
  | (none, none) =>
    ({ h with session := mapDelete h.session msg.Channel }, [ConnEvent.handled dispatcher msg])
  | (some next, none) =>
    ({ h with session := mapStore h.session msg.Channel next }, [ConnEvent.handled dispatcher msg])

/-- Lines 105-129 of `HandleConn`: the body of the read loop for one decoded
envelope.  `newDispatcher` is `h.newDispatcher` applied to the context that
carries the Downstream of the channel. -/
def handleMessage (Handle : D → message → Option D × Option E) (newDispatcher : Int → D)
    (h : ConnectionHandler D) (msg : message) : ConnectionHandler D × List (ConnEvent D) :=
  match h.session msg.Channel with
  | none =>
    if msg.Number < h.highestChannel then
      (h, [ConnEvent.revoked msg])
    else
      let r := dispatch Handle h (newDispatcher msg.Channel) msg
      (r.1, ConnEvent.created msg.Channel :: r.2)
  | some dispatcher => dispatch Handle h dispatcher msg

/-- The read loop of `HandleConn` over the results of successive `Decode`
calls: the first decode error (or the end of the stream) ends the loop, every
decoded envelope goes through `handleMessage` and the loop continues. -/
def HandleConn (Handle : D → message → Option D × Option E) (newDispatcher : Int → D) :
    ConnectionHandler D → List (Except DecodeError message) →
      ConnectionHandler D × List (ConnEvent D)
  | h, [] => (h, [])
  | h, Except.error _ :: _ => (h, [])
  | h, Except.ok msg :: rest =>
    let r := handleMessage Handle newDispatcher h msg
    let r2 := HandleConn Handle newDispatcher r.1 rest
    (r2.1, r.2 ++ r2.2)

/-- The envelopes decoded on the connection: those before the first decode error. -/
def decodedEnvelopes : List (Except DecodeError message) → List message
  | [] => []
  | Except.error _ :: _ => []
  | Except.ok msg :: rest => msg :: decodedEnvelopes rest

/-- The envelopes passed to `Dispatcher.Handle`, in call order. -/
def handledEnvelopes : List (ConnEvent D) → List message
  | [] => []
  | ConnEvent.handled _ msg :: rest => msg :: handledEnvelopes rest
  | _ :: rest => handledEnvelopes rest

/-- The envelopes logged as revoked and skipped, in order. -/
def revokedEnvelopes : List (ConnEvent D) → List message
  | [] => []
  | ConnEvent.revoked msg :: rest => msg :: revokedEnvelopes rest
  | _ :: rest => revokedEnvelopes rest

/-- The revoked-channel test of lines 106-107: the channel has no entry in the
session table and `msg.Number < h.highestChannel`. -/
def revokedRule (h : ConnectionHandler D) (msg : message) : Bool :=
  (h.session msg.Channel).isNone && decide (msg.Number < h.highestChannel)

/-- The handler state in which each envelope of a sequence is processed. -/
def statesBefore (Handle : D → message → Option D × Option E) (newDispatcher : Int → D) :
    ConnectionHandler D → List message → List (ConnectionHandler D)
  | _, [] => []
  | h, msg :: rest =>
    h :: statesBefore Handle newDispatcher (handleMessage Handle newDispatcher h msg).1 rest

end ConnHandler

/-! ## isolate/porto/box.go -/

/-- The errors that the embedded code tells apart: `syscall.EAGAIN`,
`isolate.ErrSpawningCancelled`, the Porto error `EError_LayerNotFound`, the two
errors that `Spool` builds itself, and any other error of a collaborator. -/
inductive Error where
  | EAGAIN
  | ErrSpawningCancelled
  | LayerNotFound
  | registryEmpty
  | unknownManifestType
  | other (text : String)
deriving DecidableEq, Repr

/-- The struct `portoBoxConfig`. -/
structure portoBoxConfig where
  Layers : String
  Containers : String
  Journal : String
  SpawnConcurrency : Nat
  RegistryAuth : String → Option String
  DialRetries : Int
  CleanupEnabled : Bool
  WeakEnabled : Bool

/-- Modelled from the spec: the type `journal` and its methods `In` and
`Insert`, which are declared outside the two source files.  The spec describes
the Journal as an index mapping cache keys to backend layer identifiers that
exposes an `instanceID`; `box.go` reads that id as the field `UUID`. -/
structure journal where
  UUID : String
  index : String → Option String

/-- Modelled from the spec: `journal.In`, true when the Journal maps the key to
that digest. -/
def journal.In (j : journal) (layer digest : String) : Bool :=
  j.index layer == some digest

/-- Modelled from the spec: `journal.Insert`, which maps the key to the digest. -/
def journal.Insert (j : journal) (layer digest : String) : journal :=
  { j with index := mapStore j.index layer digest }

/-- Modelled from the spec: the type `container` (a Tracked Container), declared
outside the two source files; `box.go` reads only its field `containerID`. -/
structure container where
  containerID : String
  rootDir : String
deriving DecidableEq, Repr

/-- The fields of `Box` that the embedded methods use.  `spawnSM` is the number
of permits of the Spawn Limiter that are currently held. -/
structure Box where
  config : portoBoxConfig
  journal : journal
  spawnSM : Nat
  containers : String → Option container
  rootPrefix : String

/-- The value a Go `int64` holds after an arithmetic result `x`: `x` wrapped
into the range from -2^63 to 2^63 - 1. -/
def int64 (x : Int) : Int :=
  (x + 9223372036854775808) % 18446744073709551616 - 9223372036854775808

/-- The package-level metrics that `Spawn` updates; `spawningQueueSize` is the
admission queue-depth gauge.  The counters are declared outside the two source
files; `Spawn` uses them through `Inc(1)`, `Dec(1)` and `Count()`, each a
separate atomic operation on a 64-bit signed value that every concurrent
`Spawn` call shares. -/
structure Metrics where
  spawningQueueSize : Int
  containersCreatedCounter : Int
  containersErroredCounter : Int
deriving DecidableEq, Repr

/-! ### waitLoop -/

/-- The backend call made by the reaper step. -/
inductive ReapEvent where
  /-- line 316: `container.Kill()` -/
  | Kill (c : container)
deriving DecidableEq, Repr

/-- Lines 306-322 of `waitLoop`: what the reaper does with the name returned by
`portoConn.Wait`.  The empty string is what `Wait` returns when no container
died within the timeout.  The result of `Kill` is only logged. -/
def reap (b : Box) (containerName : String) : Box × List ReapEvent :=
  if containerName ≠ "" then
    match b.containers containerName with
    | some c => ({ b with containers := mapDelete b.containers containerName }, [ReapEvent.Kill c])
    | none => (b, [])
  else
    (b, [])

/-! ### appLayerName -/

/-- Go `strings.Replace(s, ":", "_", -1)`: both strings are one ASCII character
long, so every colon of `s` becomes an underscore and nothing else changes. -/
def replaceColons (s : String) : String :=
  String.mk (s.data.map (fun c => if c = ':' then '_' else c))

/-- The method `Box.appLayerName`. -/
def Box.appLayerName (b : Box) (appname : String) : String :=
  let appname := replaceColons appname
  if b.config.WeakEnabled then
    "_weak_" ++ b.journal.UUID ++ appname
  else
    b.journal.UUID ++ appname

/-! ### Spool -/

/-- The fields of the converted profile that `Spool` reads. -/
structure Profile where
  Registry : String
  Repository : String
deriving DecidableEq, Repr

/-- The manifest returned by the registry, by its Go type, with the digests of
`manifest.References()`. -/
inductive Manifest where
  | schema1 (references : List String)
  | schema2 (references : List String)
  | unknown (references : List String)
deriving DecidableEq, Repr

/-- The outcomes of the collaborator calls of one `Spool` call.  An `Option
Error` is the returned `error`, `none` for nil. -/
structure SpoolEnv where
  ConvertProfile : String → Except Error Profile
  portoConnect : Option Error
  Join : List String → String
  ParseNamed : String → Option Error
  NewRepository : String → Option String → Option Error
  TagsGet : Except Error String
  Manifests : Option Error
  ManifestsGet : String → Except Error Manifest
  RemoveLayer : String → Option Error
  layerOrderV1 : List String → List String
  layerOrderV2 : List String → List String
  BlobGet : String → Except Error String
  ImportLayer : String → String → Option Error

/-- The collaborator calls that `Spool` makes. -/
inductive SpoolEvent where
  | portoConnect
  | TagsGet
  | Manifests
  | ManifestsGet (digest : String)
  | RemoveLayer (layer : String)
  | BlobGet (digest : String)
  | ImportLayer (layer : String) (blobPath : String)
deriving DecidableEq, Repr

/-- What a `Spool` call leaves behind: the returned error, the Journal and the
calls it made. -/
structure SpoolResult where
  err : Option Error
  journal : journal
  events : List SpoolEvent

/-- Lines 418-430 of `Spool`: fetch and import the blobs in order, stopping at
the first error. -/
def importLayers (env : SpoolEnv) (layerName : String) :
    List String → Option Error × List SpoolEvent
  | [] => (none, [])
  | digest :: rest =>
    match env.BlobGet digest with
    | Except.error err => (some err, [SpoolEvent.BlobGet digest])
    | Except.ok blobPath =>
      match env.ImportLayer layerName blobPath with
      | some err => (some err, [SpoolEvent.BlobGet digest, SpoolEvent.ImportLayer layerName blobPath])
      | none =>
        let r := importLayers env layerName rest
        (r.1, SpoolEvent.BlobGet digest :: SpoolEvent.ImportLayer layerName blobPath :: r.2)

/-- Lines 408-434 of `Spool`: choose the layer order by the manifest type, then
fetch and import the blobs and, when every one succeeded, insert the digest into
the Journal under the layer name. -/
def spoolImport (env : SpoolEnv) (b : Box) (layerName digest : String)
    (manifest : Manifest) (pre2 : List SpoolEvent) : SpoolResult :=
  let ordered : Except Error (List String) :=
    match manifest with
    | Manifest.schema1 refs => Except.ok (env.layerOrderV1 refs)
    | Manifest.schema2 refs => Except.ok (env.layerOrderV2 refs)
    | Manifest.unknown _ => Except.error Error.unknownManifestType
  match ordered with
  | Except.error err => ⟨some err, b.journal, pre2⟩
  | Except.ok descriptors =>
    match importLayers env layerName descriptors with
    | (some err, evs) => ⟨some err, b.journal, pre2 ++ evs⟩
    | (none, evs) => ⟨none, b.journal.Insert layerName digest, pre2 ++ evs⟩

/-- Lines 394-406 of `Spool`, followed by `spoolImport`: the path taken when
the Journal does not hold the digest under the layer name.  A `RemoveLayer`
error other than `EError_LayerNotFound` is returned. -/
def spoolMiss (env : SpoolEnv) (b : Box) (layerName digest : String)
    (pre : List SpoolEvent) : SpoolResult :=
  match env.Manifests with
  | some err => ⟨some err, b.journal, pre ++ [SpoolEvent.Manifests]⟩
  | none =>
    match env.ManifestsGet digest with
    | Except.error err =>
      ⟨some err, b.journal, pre ++ [SpoolEvent.Manifests, SpoolEvent.ManifestsGet digest]⟩
    | Except.ok manifest =>
      let pre2 := pre ++ [SpoolEvent.Manifests, SpoolEvent.ManifestsGet digest,
        SpoolEvent.RemoveLayer layerName]
      match env.RemoveLayer layerName with
      | some err =>
        if err ≠ Error.LayerNotFound then ⟨some err, b.journal, pre2⟩
        else spoolImport env b layerName digest manifest pre2
      | none => spoolImport env b layerName digest manifest pre2

/-- Go `strings.HasPrefix(s, "http")`. -/
def hasHttpScheme (s : String) : Bool :=
  "http".data.isPrefixOf s.data

/-- Lines 341-385 of `Spool`: convert the profile, connect to Porto, build the
repository client and resolve the tag.  The result is the resolved digest, or
the error returned by `Spool` with the calls made up to it. -/
def spoolResolve (env : SpoolEnv) (b : Box) (name : String) (opts : String) :
    Except (Error × List SpoolEvent) String :=
  match env.ConvertProfile opts with
  | Except.error err => Except.error (err, [])
  | Except.ok profile =>
    if profile.Registry = "" then Except.error (Error.registryEmpty, [])
    else
      match env.portoConnect with
      | some err => Except.error (err, [SpoolEvent.portoConnect])
      | none =>
        match env.ParseNamed (env.Join [profile.Repository, profile.Repository, name]) with
        | some err => Except.error (err, [SpoolEvent.portoConnect])
        | none =>
          let registry :=
            if hasHttpScheme profile.Registry then profile.Registry
            else "https://" ++ profile.Registry
          match env.NewRepository registry (b.config.RegistryAuth profile.Registry) with
          | some err => Except.error (err, [SpoolEvent.portoConnect])
          | none =>
            match env.TagsGet with
            | Except.error err =>
              Except.error (err, [SpoolEvent.portoConnect, SpoolEvent.TagsGet])
            | Except.ok digest => Except.ok digest

/-- The method `Box.Spool`.  `opts` is the raw profile given by the caller.
Lines 387-392 are the cache check. -/
def Box.Spool (env : SpoolEnv) (b : Box) (name : String) (opts : String) : SpoolResult :=
  match spoolResolve env b name opts with
  | Except.error (err, evs) => ⟨some err, b.journal, evs⟩
  | Except.ok digest =>
    let layerName := b.appLayerName name
    if b.journal.In layerName digest then
      ⟨none, b.journal, [SpoolEvent.portoConnect, SpoolEvent.TagsGet]⟩
    else
      spoolMiss env b layerName digest [SpoolEvent.portoConnect, SpoolEvent.TagsGet]

/-! ### Spawn -/

/-- Modelled from the spec: the fields of `isolate.SpawnConfig` that `Spawn`
reads (a container name, the raw profile, executable, arguments, environment);
the type is declared outside the two source files. -/
structure SpawnConfig where
  Opts : String
  Name : String
  Executable : String
  Args : List String
  Env : List String
deriving DecidableEq, Repr

/-- The struct literal `execInfo` built on lines 452-458. -/
structure execInfo where
  profile : Profile
  name : String
  executable : String
  args : List String
  env : List String
deriving DecidableEq, Repr

/-- The struct literal `containerConfig` built on lines 461-466. -/
structure containerConfig where
  Root : String
  ID : String
  Layer : String
  CleanupEnabled : Bool
deriving DecidableEq, Repr

/-- The outcomes of the collaborator calls of one `Spawn` call, and what the
concurrent `Spawn` calls do to the shared gauge meanwhile.  `Acquire` is the
result of `b.spawnSM.Acquire(ctx)`: nil when a permit was obtained, an error
when the context was cancelled first.  `othersBeforeCount` is the net change
that other calls make to `spawningQueueSize` between this call's `Inc(1)` on
line 446 and its `Count()` on line 447; `othersAfterCount` is their net change
between that `Count()` and the return of this call. -/
structure SpawnEnv where
  ConvertProfile : String → Except Error Profile
  uuidNew : String
  Join : List String → String
  othersBeforeCount : Int
  othersAfterCount : Int
  portoConnect : Option Error
  Acquire : Option Error
  newContainer : containerConfig → execInfo → Except Error container
  start : container → Option Error

/-- Lines 446-447 of `Spawn`: the value that `spawningQueueSize.Count()`
returns, after this call's `Inc(1)` and the updates of the other calls that
landed in between. -/
def queueCounted (env : SpawnEnv) (mt : Metrics) : Int :=
  int64 (int64 (mt.spawningQueueSize + 1) + env.othersBeforeCount)

/-- The value of `spawningQueueSize` when the call returns, this call's own
`Dec(1)` left aside: the counted value and the later updates of the other
calls. -/
def queueAtReturn (env : SpawnEnv) (mt : Metrics) : Int :=
  int64 (queueCounted env mt + env.othersAfterCount)

/-- The calls that `Spawn` makes, in program order. -/
inductive SpawnEvent where
  /-- line 446: `spawningQueueSize.Inc(1)` -/
  | QueueInc
  /-- lines 448 and 475: `spawningQueueSize.Dec(1)` -/
  | QueueDec
  /-- line 468: `portoConnect()` -/
  | portoConnect
  /-- line 474: `b.spawnSM.Acquire(ctx)` and whether it returned nil -/
  | Acquire (ok : Bool)
  /-- line 479, deferred: `b.spawnSM.Release()` -/
  | Release
  /-- line 484: `newContainer` and whether it returned a container -/
  | newContainer (id : String) (ok : Bool)
  /-- line 494: `pr.start` -/
  | start (id : String)
  /-- line 496: `pr.Cleanup` -/
  | Cleanup (id : String)
  /-- line 499: `isolate.NotifyAbouStart` -/
  | NotifyAbouStart
  /-- line 472, deferred: `portoConn.Close()` -/
  | Close
deriving DecidableEq, Repr

/-- What a `Spawn` call leaves behind: the returned process or error, the Box,
the metrics and the calls it made. -/
structure SpawnResult where
  result : Except Error container
  box : Box
  metrics : Metrics
  events : List SpawnEvent

/-- The method `Box.addRootNamespacePrefix`. -/
def Box.addRootNamespacePrefix (Join : List String → String) (b : Box) (c : String) : String :=
  Join [b.rootPrefix, c]

/-- The method `Box.Spawn`.  Deferred calls run at the return, last deferred
first: `Release` before `Close`.  The gauge is read once, on line 447, and
each `Inc(1)` or `Dec(1)` of this call adds to whatever the other calls have
made of the shared value. -/
def Box.Spawn (env : SpawnEnv) (b : Box) (mt : Metrics) (config : SpawnConfig) : SpawnResult :=
  match env.ConvertProfile config.Opts with
  | Except.error err => ⟨Except.error err, b, mt, []⟩
  | Except.ok profile =>
    if queueCounted env mt > 10 then
      ⟨Except.error Error.EAGAIN, b,
        { mt with spawningQueueSize := int64 (queueAtReturn env mt - 1) },
        [SpawnEvent.QueueInc, SpawnEvent.QueueDec]⟩
    else
      let ei : execInfo :=
        { profile := profile, name := config.Name, executable := config.Executable,
          args := config.Args, env := config.Env }
      let ID := env.uuidNew
      let cfg : containerConfig :=
        { Root := env.Join [b.config.Containers, ID],
          ID := b.addRootNamespacePrefix env.Join ID,
          Layer := b.appLayerName config.Name,
          CleanupEnabled := b.config.CleanupEnabled }
      match env.portoConnect with
      | some err =>
        ⟨Except.error err, b, { mt with spawningQueueSize := queueAtReturn env mt },
          [SpawnEvent.QueueInc, SpawnEvent.portoConnect]⟩
      | none =>
        let mt2 := { mt with spawningQueueSize := int64 (queueAtReturn env mt - 1) }
        match env.Acquire with
        | some _ =>
          ⟨Except.error Error.ErrSpawningCancelled, b, mt2,
            [SpawnEvent.QueueInc, SpawnEvent.portoConnect, SpawnEvent.Acquire false,
              SpawnEvent.QueueDec, SpawnEvent.Close]⟩
        | none =>
          let held := { b with spawnSM := b.spawnSM + 1 }
          let mt3 :=
            { mt2 with containersCreatedCounter := int64 (mt2.containersCreatedCounter + 1) }
          let pre := [SpawnEvent.QueueInc, SpawnEvent.portoConnect, SpawnEvent.Acquire true,
            SpawnEvent.QueueDec]
          match env.newContainer cfg ei with
          | Except.error err =>
            ⟨Except.error err, { held with spawnSM := held.spawnSM - 1 },
              { mt3 with
                containersErroredCounter := int64 (mt3.containersErroredCounter + 1) },
              pre ++ [SpawnEvent.newContainer cfg.ID false, SpawnEvent.Release, SpawnEvent.Close]⟩
          | Except.ok pr =>
            let tracked := { held with containers := mapStore held.containers pr.containerID pr }
            match env.start pr with
            | some err =>
              ⟨Except.error err, { tracked with spawnSM := tracked.spawnSM - 1 },
                { mt3 with
                  containersErroredCounter := int64 (mt3.containersErroredCounter + 1) },
                pre ++ [SpawnEvent.newContainer cfg.ID true, SpawnEvent.start pr.containerID,
                  SpawnEvent.Cleanup pr.containerID, SpawnEvent.Release, SpawnEvent.Close]⟩
            | none =>
              ⟨Except.ok pr, { tracked with spawnSM := tracked.spawnSM - 1 }, mt3,
                pre ++ [SpawnEvent.newContainer cfg.ID true, SpawnEvent.start pr.containerID,
                  SpawnEvent.NotifyAbouStart, SpawnEvent.Release, SpawnEvent.Close]⟩

/-- The number of successful `Acquire` calls in an event list. -/
def acquiredCount (evs : List SpawnEvent) : Nat := evs.count (SpawnEvent.Acquire true)

/-- The number of `Release` calls in an event list. -/
def releasedCount (evs : List SpawnEvent) : Nat := evs.count SpawnEvent.Release

/-- Whether an event is the creation of a container. -/
def SpawnEvent.isNewContainer : SpawnEvent → Bool
  | SpawnEvent.newContainer _ _ => true
  | _ => false

/-- Whether an event is a call of `Acquire`. -/
def SpawnEvent.isAcquire : SpawnEvent → Bool
  | SpawnEvent.Acquire _ => true
  | _ => false

/-- Whether a `Spool` event goes past the cache check: a manifest or blob
fetch, the removal of a layer or the import of a layer. -/
def SpoolEvent.pastCacheCheck : SpoolEvent → Bool
  | SpoolEvent.portoConnect => false
  | SpoolEvent.TagsGet => false
  | _ => true

/-- The Spawn calls of a sequence run one after another on the same Box and
metrics, each with its own environment; the results are listed in call order. -/
def spawnAll (config : SpawnConfig) : Box → Metrics → List SpawnEnv → List SpawnResult
  | _, _, [] => []
  | b, mt, env :: rest =>
    let r := Box.Spawn env b mt config
    r :: spawnAll config r.box r.metrics rest

/-! ### Concrete collaborators for runs of the code -/

/-- A Dispatcher for concrete runs.  Its state counts the envelopes it has
handled; message type 1 ends the channel (nil Dispatcher, nil error), message
type 2 makes `Handle` return an error, any other type continues. -/
def counterHandle (d : Nat) (msg : message) : Option Nat × Option String :=
  if msg.Number = 1 then (none, none)
  else if msg.Number = 2 then (none, some "handle failed")
  else (some (d + 1), none)

/-- The initial Dispatcher of the concrete runs, the same for every channel. -/
def counterInit (_ : Int) : Nat := 0

/-- A configuration for concrete runs; `weak` is the flag `WeakEnabled`. -/
def sampleConfig (weak : Bool) : portoBoxConfig :=
  { Layers := "/var/layers", Containers := "/var/containers", Journal := "/var/journal",
    SpawnConcurrency := 10, RegistryAuth := fun _ => none, DialRetries := 10,
    CleanupEnabled := true, WeakEnabled := weak }

/-- A container for concrete runs, named by its id. -/
def sampleContainer (id : String) : container :=
  { containerID := id, rootDir := "/var/containers/" ++ id }

/-- A Box for concrete runs: the Journal has the given instance id and no
entries, no permit is held, and the containers `a` and `b` are tracked. -/
def sampleBox (weak : Bool) (uuid : String) : Box :=
  { config := sampleConfig weak,
    journal := { UUID := uuid, index := fun _ => none },
    spawnSM := 0,
    containers := fun name =>
      if name = "a" then some (sampleContainer "a")
      else if name = "b" then some (sampleContainer "b") else none,
    rootPrefix := "/porto/stout" }

/-- A Spawn request for concrete runs. -/
def sampleSpawnConfig : SpawnConfig :=
  { Opts := "profile", Name := "app:v1", Executable := "/bin/worker", Args := [], Env := [] }

/-- An environment for concrete runs of `Spawn`: the profile converts, no
other call touches the gauge during the call, and the backend connection, the
limiter, container creation and start succeed or fail as the four arguments
say (`none` is success). -/
def sampleSpawnEnv (connect acquire create start : Option Error) : SpawnEnv :=
  { ConvertProfile := fun _ => Except.ok { Registry := "registry.local", Repository := "apps" },
    uuidNew := "c1",
    Join := fun parts => "/".intercalate parts,
    othersBeforeCount := 0,
    othersAfterCount := 0,
    portoConnect := connect,
    Acquire := acquire,
    newContainer := fun cfg _ =>
      match create with
      | some err => Except.error err
      | none => Except.ok { containerID := cfg.ID, rootDir := cfg.Root },
    start := fun _ => start }

/-- The environment `env` with concurrent calls changing the gauge by `before`
between this call's `Inc(1)` and `Count()`, and by `after` from then to its
return. -/
def SpawnEnv.withOthers (env : SpawnEnv) (before after : Int) : SpawnEnv :=
  { env with othersBeforeCount := before, othersAfterCount := after }

/-- Whether a `Spawn` call returned `syscall.EAGAIN`. -/
def SpawnResult.isEAGAIN (r : SpawnResult) : Bool :=
  match r.result with
  | Except.error Error.EAGAIN => true
  | _ => false

/-- An environment for concrete runs of `Spool`: the tag resolves to the
given digest, the manifest is a schema2 manifest with two layers, and every
call succeeds except `RemoveLayer`, which reports that the layer is not found. -/
def sampleSpoolEnv (digest : String) : SpoolEnv :=
  { ConvertProfile := fun _ => Except.ok { Registry := "registry.local", Repository := "apps" },
    portoConnect := none,
    Join := fun parts => "/".intercalate parts,
    ParseNamed := fun _ => none,
    NewRepository := fun _ _ => none,
    TagsGet := Except.ok digest,
    Manifests := none,
    ManifestsGet := fun _ => Except.ok (Manifest.schema2 ["sha256:l1", "sha256:l2"]),
    RemoveLayer := fun _ => some Error.LayerNotFound,
    layerOrderV1 := fun refs => refs.reverse,
    layerOrderV2 := fun refs => refs,
    BlobGet := fun d => Except.ok ("/var/layers/" ++ d),
    ImportLayer := fun _ _ => none }

/-! ### Lemmas on the read loop -/

section ConnLemmas

variable {D E : Type}

theorem dispatch_events (Handle : D → message → Option D × Option E)
    (h : ConnectionHandler D) (d : D) (msg : message) :
    (dispatch Handle h d msg).2 = [ConnEvent.handled d msg] := by
  unfold dispatch
  rcases hres : Handle d msg with ⟨next, err⟩
  cases err <;> cases next <;> rfl

theorem handledEnvelopes_append (xs ys : List (ConnEvent D)) :
    handledEnvelopes (xs ++ ys) = handledEnvelopes xs ++ handledEnvelopes ys := by
  induction xs with
  | nil => rfl
  | cons x xs ih =>
    cases x <;> simp [handledEnvelopes, ih]

theorem handleMessage_handled (Handle : D → message → Option D × Option E)
    (newDispatcher : Int → D) (h : ConnectionHandler D) (msg : message) :
    handledEnvelopes (handleMessage Handle newDispatcher h msg).2 =
      if revokedRule h msg then [] else [msg] := by
  unfold handleMessage revokedRule
  cases hs : h.session msg.Channel with
  | none =>
    by_cases hlt : msg.Number < h.highestChannel
    · simp [hlt, handledEnvelopes]
    · simp [hlt, handledEnvelopes, dispatch_events]
  | some d =>
    simp [handledEnvelopes, dispatch_events]

theorem revokedEnvelopes_append (xs ys : List (ConnEvent D)) :
    revokedEnvelopes (xs ++ ys) = revokedEnvelopes xs ++ revokedEnvelopes ys := by
  induction xs with
  | nil => rfl
  | cons x xs ih =>
    cases x <;> simp [revokedEnvelopes, ih]

theorem handleMessage_revoked (Handle : D → message → Option D × Option E)
    (newDispatcher : Int → D) (h : ConnectionHandler D) (msg : message) :
    revokedEnvelopes (handleMessage Handle newDispatcher h msg).2 =
      if revokedRule h msg then [msg] else [] := by
  unfold handleMessage revokedRule
  cases hs : h.session msg.Channel with
  | none =>
    by_cases hlt : msg.Number < h.highestChannel
    · simp [hlt, revokedEnvelopes]
    · simp [hlt, revokedEnvelopes, dispatch_events]
  | some d =>
    simp [revokedEnvelopes, dispatch_events]

theorem handleMessage_highestChannel (Handle : D → message → Option D × Option E)
    (newDispatcher : Int → D) (h : ConnectionHandler D) (msg : message) :
    (handleMessage Handle newDispatcher h msg).1.highestChannel = h.highestChannel := by
  have hd : ∀ d, (dispatch Handle h d msg).1.highestChannel = h.highestChannel := by
    intro d
    unfold dispatch
    rcases hres : Handle d msg with ⟨next, err⟩
    cases err <;> cases next <;> rfl
  unfold handleMessage
  cases hs : h.session msg.Channel with
  | none =>
    by_cases hlt : msg.Number < h.highestChannel
    · simp [hlt]
    · simp [hlt, hd]
  | some d => simp [hd]

/-- No iteration of the read loop assigns `highestChannel`: it keeps the value
it had when `HandleConn` was called. -/
theorem HandleConn_highestChannel (Handle : D → message → Option D × Option E)
    (newDispatcher : Int → D) (h : ConnectionHandler D)
    (stream : List (Except DecodeError message)) :
    (HandleConn Handle newDispatcher h stream).1.highestChannel = h.highestChannel := by
  induction stream generalizing h with
  | nil => rfl
  | cons x rest ih =>
    cases x with
    | error e => rfl
    | ok msg =>
      simp only [HandleConn]
      rw [ih, handleMessage_highestChannel]

end ConnLemmas

/-! ### Theorems on the read loop -/

/-- C1: for every sequence of decode results, the envelopes passed to `Handle`
are the decoded envelopes, in the order received, with exactly those removed
for which the revoked-channel test of lines 106-107 held in the handler state of
their iteration; in particular they are a subsequence of the decoded envelopes,
and each decoded envelope is either handled once or logged as revoked once,
whatever `Handle` returns. -/
theorem HandleConn_handles_all_but_revoked {D E : Type}
    (Handle : D → message → Option D × Option E) (newDispatcher : Int → D)
    (h : ConnectionHandler D) (stream : List (Except DecodeError message)) :
    handledEnvelopes (HandleConn Handle newDispatcher h stream).2 =
      (((decodedEnvelopes stream).zip
          (statesBefore Handle newDispatcher h (decodedEnvelopes stream))).filter
        (fun p => !revokedRule p.2 p.1)).map Prod.fst ∧
    (handledEnvelopes (HandleConn Handle newDispatcher h stream).2).Sublist
      (decodedEnvelopes stream) ∧
    (handledEnvelopes (HandleConn Handle newDispatcher h stream).2).length +
      (revokedEnvelopes (HandleConn Handle newDispatcher h stream).2).length =
        (decodedEnvelopes stream).length := by
  induction stream generalizing h with
  | nil => simp [HandleConn, decodedEnvelopes, handledEnvelopes, revokedEnvelopes]
  | cons x rest ih =>
    cases x with
    | error e => simp [HandleConn, decodedEnvelopes, handledEnvelopes, revokedEnvelopes]
    | ok msg =>
      obtain ⟨ih1, ih2, ih3⟩ := ih (handleMessage Handle newDispatcher h msg).1
      simp only [HandleConn, decodedEnvelopes, statesBefore, handledEnvelopes_append,
        revokedEnvelopes_append, handleMessage_handled, handleMessage_revoked, List.zip_cons_cons,
        List.length_append, List.length_cons]
      cases hr : revokedRule h msg
      · refine ⟨?_, ?_, ?_⟩
        · simp [List.filter_cons, hr, ih1]
        · simpa using ih2.cons₂ msg
        · simp; omega
      · refine ⟨?_, ?_, ?_⟩
        · simp [List.filter_cons, hr, ih1]
        · simpa using ih2.cons msg
        · simp; omega

/-- C4: when an envelope on channel `c` reaches `Handle` (it is not rejected as
revoked), `Handle` is called on the Dispatcher of `c` (the stored one, or a
fresh one when `c` has no entry), and afterwards the session table differs
from the table before only at `c`: `c` maps to the returned Dispatcher when
`Handle` returns it with a nil error, and `c` is absent when `Handle` returns an
error or a nil Dispatcher. -/
theorem handleMessage_session_frame {D E : Type}
    (Handle : D → message → Option D × Option E) (newDispatcher : Int → D)
    (h : ConnectionHandler D) (msg : message) (hreach : revokedRule h msg = false) :
    ConnEvent.handled ((h.session msg.Channel).getD (newDispatcher msg.Channel)) msg ∈
      (handleMessage Handle newDispatcher h msg).2 ∧
    (∀ c, c ≠ msg.Channel →
      (handleMessage Handle newDispatcher h msg).1.session c = h.session c) ∧
    (∀ next, Handle ((h.session msg.Channel).getD (newDispatcher msg.Channel)) msg
        = (some next, none) →
      (handleMessage Handle newDispatcher h msg).1.session msg.Channel = some next) ∧
    ((Handle ((h.session msg.Channel).getD (newDispatcher msg.Channel)) msg).2 ≠ none →
      (handleMessage Handle newDispatcher h msg).1.session msg.Channel = none) ∧
    ((Handle ((h.session msg.Channel).getD (newDispatcher msg.Channel)) msg).1 = none →
      (handleMessage Handle newDispatcher h msg).1.session msg.Channel = none) := by
  have hstep : handleMessage Handle newDispatcher h msg =
      ((dispatch Handle h ((h.session msg.Channel).getD (newDispatcher msg.Channel)) msg).1,
        (handleMessage Handle newDispatcher h msg).2) ∧
      ConnEvent.handled ((h.session msg.Channel).getD (newDispatcher msg.Channel)) msg ∈
        (handleMessage Handle newDispatcher h msg).2 := by
    unfold handleMessage
    unfold revokedRule at hreach
    cases hs : h.session msg.Channel with
    | none =>
      have hlt : ¬ msg.Number < h.highestChannel := by simpa [hs] using hreach
      simp [hlt, dispatch_events]
    | some d => simp [dispatch_events, Prod.ext_iff]
  obtain ⟨hst, hmem⟩ := hstep
  refine ⟨hmem, ?_⟩
  rw [hst]
  generalize (h.session msg.Channel).getD (newDispatcher msg.Channel) = d
  simp only
  unfold dispatch
  rcases hres : Handle d msg with ⟨next, err⟩
  cases err <;> cases next <;> simp [mapDelete, mapStore] <;> intro c hc <;> simp [hc]

/-- C4, at a concrete input: channel 3 holds Dispatcher 4, channel 8 holds
Dispatcher 1, and an envelope of type 0 arrives on channel 3. -/
theorem handleMessage_session_frame_witness :
    ConnEvent.handled 4 ⟨3, 0, []⟩ ∈
      (handleMessage counterHandle counterInit
        ⟨fun c => if c = 3 then some 4 else if c = 8 then some 1 else none, 0⟩ ⟨3, 0, []⟩).2 ∧
    (handleMessage counterHandle counterInit
        ⟨fun c => if c = 3 then some 4 else if c = 8 then some 1 else none, 0⟩
        ⟨3, 0, []⟩).1.session 8 = some 1 ∧
    (handleMessage counterHandle counterInit
        ⟨fun c => if c = 3 then some 4 else if c = 8 then some 1 else none, 0⟩
        ⟨3, 0, []⟩).1.session 3 = some 5 :=
  have key := handleMessage_session_frame counterHandle counterInit
    ⟨fun c => if c = 3 then some 4 else if c = 8 then some 1 else none, 0⟩ ⟨3, 0, []⟩
    (by decide)
  ⟨key.1, key.2.1 8 (by decide), key.2.2.1 5 (by decide)⟩

/-- C2: evaluation of the loop body where the claim fails.  On a fresh handler
(`highestChannel` 0, empty table) an envelope on channel -1 with message type 0
has a channel id below the high-water mark and no entry in the table, yet a
Dispatcher is created, `Handle` is called and the table gains an entry.  The
same happens to an envelope on channel 5 with message type 9 when
`highestChannel` is 7 and the table is empty. -/
theorem revoked_test_ignores_channel_id :
    (handleMessage counterHandle counterInit (newConnectionHandler Nat) ⟨-1, 0, []⟩).2 =
      [ConnEvent.created (-1), ConnEvent.handled 0 ⟨-1, 0, []⟩] ∧
    (handleMessage counterHandle counterInit (newConnectionHandler Nat)
      ⟨-1, 0, []⟩).1.session (-1) = some 1 ∧
    (handleMessage counterHandle counterInit ⟨fun _ => none, 7⟩ ⟨5, 9, []⟩).2 =
      [ConnEvent.created 5, ConnEvent.handled 0 ⟨5, 9, []⟩] ∧
    (handleMessage counterHandle counterInit ⟨fun _ => none, 7⟩ ⟨5, 9, []⟩).1.session 5 =
      some 1 := by
  decide

/-- C3: evaluation of `HandleConn` where the claim fails.  From a fresh handler,
channel 1 is opened, its Dispatcher returns a terminal state (or an error), and
a later envelope on channel 1 is not rejected: a second Dispatcher is created
for channel 1, `Handle` is called on it, and channel 1 is in the session table
again. -/
theorem closed_channel_is_reopened :
    (HandleConn counterHandle counterInit (newConnectionHandler Nat)
      [Except.ok ⟨1, 0, []⟩, Except.ok ⟨1, 1, []⟩, Except.ok ⟨1, 0, []⟩]).2 =
      [ConnEvent.created 1, ConnEvent.handled 0 ⟨1, 0, []⟩, ConnEvent.handled 1 ⟨1, 1, []⟩,
        ConnEvent.created 1, ConnEvent.handled 0 ⟨1, 0, []⟩] ∧
    (HandleConn counterHandle counterInit (newConnectionHandler Nat)
      [Except.ok ⟨1, 0, []⟩, Except.ok ⟨1, 1, []⟩]).1.session 1 = none ∧
    (HandleConn counterHandle counterInit (newConnectionHandler Nat)
      [Except.ok ⟨1, 0, []⟩, Except.ok ⟨1, 1, []⟩, Except.ok ⟨1, 0, []⟩]).1.session 1 = some 1 ∧
    (HandleConn counterHandle counterInit (newConnectionHandler Nat)
      [Except.ok ⟨1, 2, []⟩, Except.ok ⟨1, 0, []⟩]).2 =
      [ConnEvent.created 1, ConnEvent.handled 0 ⟨1, 2, []⟩,
        ConnEvent.created 1, ConnEvent.handled 0 ⟨1, 0, []⟩] ∧
    (HandleConn counterHandle counterInit (newConnectionHandler Nat)
      [Except.ok ⟨1, 2, []⟩, Except.ok ⟨1, 0, []⟩]).1.session 1 = some 1 := by
  decide

/-! ### Theorems on the reaper step -/

/-- C6: for every Box and every name that `Wait` reports dead (a non-empty
name; the empty string is what `Wait` returns when nothing died), the reaper
step removes a tracked name from the map and issues exactly one `Kill`, on
the removed container; for a name not in the map it leaves the map unchanged
and issues no `Kill`; a second report of the same name therefore changes
nothing and kills nothing; and the entry of every other name is unchanged. -/
theorem reap_removes_and_kills_once (b : Box) (containerName : String)
    (hname : containerName ≠ "") :
    (∀ c, b.containers containerName = some c →
      (reap b containerName).2 = [ReapEvent.Kill c] ∧
      (reap b containerName).1.containers containerName = none) ∧
    (b.containers containerName = none →
      (reap b containerName).2 = [] ∧ (reap b containerName).1.containers = b.containers) ∧
    ((reap (reap b containerName).1 containerName).2 = [] ∧
      (reap (reap b containerName).1 containerName).1.containers =
        (reap b containerName).1.containers) ∧
    (∀ other, other ≠ containerName →
      (reap b containerName).1.containers other = b.containers other) := by
  have hsome : ∀ c, b.containers containerName = some c →
      reap b containerName =
        ({ b with containers := mapDelete b.containers containerName }, [ReapEvent.Kill c]) := by
    intro c hc
    simp [reap, hname, hc]
  have hnone : ∀ b2 : Box, b2.containers containerName = none →
      reap b2 containerName = (b2, []) := by
    intro b2 hc
    simp [reap, hname, hc]
  have hafter : (reap b containerName).1.containers containerName = none := by
    cases hc : b.containers containerName with
    | none => rw [hnone b hc]; exact hc
    | some c => rw [hsome c hc]; simp [mapDelete]
  refine ⟨?_, ?_, ?_, ?_⟩
  · intro c hc
    rw [hsome c hc]
    simp [mapDelete]
  · intro hc
    rw [hnone b hc]
    simp
  · rw [hnone _ hafter]
    simp
  · intro other hne
    cases hc : b.containers containerName with
    | none => rw [hnone b hc]
    | some c => rw [hsome c hc]; simp [mapDelete, hne]

/-- C6, at a concrete input: the Box tracks `a` and `b`, and `a` is reported
dead twice. -/
theorem reap_removes_and_kills_once_witness :
    ((reap (sampleBox false "u") "a").2 = [ReapEvent.Kill (sampleContainer "a")] ∧
      (reap (sampleBox false "u") "a").1.containers "a" = none) ∧
    (reap (reap (sampleBox false "u") "a").1 "a").2 = [] ∧
    (reap (sampleBox false "u") "a").1.containers "b" = some (sampleContainer "b") :=
  have key := reap_removes_and_kills_once (sampleBox false "u") "a" (by decide)
  ⟨key.1 (sampleContainer "a") (by decide), key.2.2.1.1, (key.2.2.2 "b" (by decide)).trans
    (by decide)⟩

/-! ### Theorems on the cache key -/

theorem string_append_right_cancel {a b c : String} (h : a ++ c = b ++ c) : a = b := by
  have hd := congrArg String.data h
  simp only [String.data_append] at hd
  exact String.ext (List.append_cancel_right hd)

theorem string_append_left_cancel {a b c : String} (h : a ++ b = a ++ c) : b = c := by
  have hd := congrArg String.data h
  simp only [String.data_append] at hd
  exact String.ext (List.append_cancel_left hd)

/-- C9: for every image name and every two Boxes with weak caching enabled
whose Journals have distinct instance ids, `appLayerName` gives different keys
for that name; and for any two Boxes that agree on the weak flag and on the
instance id, `appLayerName` gives the same key for the same name, whatever
their other fields hold. -/
theorem appLayerName_separates_instances (b1 b2 : Box) (name : String)
    (hweak1 : b1.config.WeakEnabled = true) (hweak2 : b2.config.WeakEnabled = true)
    (hid : b1.journal.UUID ≠ b2.journal.UUID) :
    b1.appLayerName name ≠ b2.appLayerName name ∧
    (∀ c1 c2 : Box, c1.config.WeakEnabled = c2.config.WeakEnabled →
      c1.journal.UUID = c2.journal.UUID → c1.appLayerName name = c2.appLayerName name) := by
  constructor
  · intro heq
    simp only [Box.appLayerName, hweak1, hweak2, if_true] at heq
    exact hid (string_append_left_cancel (string_append_right_cancel heq))
  · intro c1 c2 hw hu
    simp only [Box.appLayerName, hw, hu]

/-- C9, at a concrete input: two weak-mode Boxes with instance ids `u1` and
`u2` and the image name `app:v1`. -/
theorem appLayerName_separates_instances_witness :
    (sampleBox true "u1").appLayerName "app:v1" = "_weak_u1app_v1" ∧
    (sampleBox true "u2").appLayerName "app:v1" = "_weak_u2app_v1" ∧
    (sampleBox true "u1").appLayerName "app:v1" ≠ (sampleBox true "u2").appLayerName "app:v1" :=
  ⟨by decide, by decide,
    (appLayerName_separates_instances (sampleBox true "u1") (sampleBox true "u2") "app:v1"
      rfl rfl (by decide)).1⟩

/-! ### Theorems on Spawn -/

theorem int64_of_range (x : Int) (hlo : -9223372036854775808 ≤ x)
    (hhi : x < 9223372036854775808) : int64 x = x := by
  unfold int64
  omega

theorem int64_add_int64 (x y : Int) : int64 (int64 x + y) = int64 (x + y) := by
  unfold int64
  omega

theorem queueCounted_eq (env : SpawnEnv) (mt : Metrics)
    (hlo : -9223372036854775808 ≤ mt.spawningQueueSize + env.othersBeforeCount)
    (hhi : mt.spawningQueueSize + env.othersBeforeCount < 9223372036854775807) :
    queueCounted env mt = mt.spawningQueueSize + env.othersBeforeCount + 1 := by
  unfold queueCounted
  rw [int64_add_int64, int64_of_range _ (by omega) (by omega)]
  omega

theorem queueAtReturn_pred (env : SpawnEnv) (mt : Metrics) :
    int64 (queueAtReturn env mt - 1) =
      int64 (mt.spawningQueueSize + env.othersBeforeCount + env.othersAfterCount) := by
  unfold queueAtReturn queueCounted int64
  omega

/-- The seven exit paths of `Spawn`, each with the result it leaves behind. -/
theorem Spawn_exit_paths (env : SpawnEnv) (b : Box) (mt : Metrics) (config : SpawnConfig) :
    (∃ err, env.ConvertProfile config.Opts = Except.error err ∧
      Box.Spawn env b mt config = ⟨Except.error err, b, mt, []⟩) ∨
    (∃ profile, env.ConvertProfile config.Opts = Except.ok profile ∧
      10 < queueCounted env mt ∧
      Box.Spawn env b mt config =
        ⟨Except.error Error.EAGAIN, b,
          { mt with spawningQueueSize := int64 (queueAtReturn env mt - 1) },
          [SpawnEvent.QueueInc, SpawnEvent.QueueDec]⟩) ∨
    (∃ profile err, env.ConvertProfile config.Opts = Except.ok profile ∧
      queueCounted env mt ≤ 10 ∧ env.portoConnect = some err ∧
      Box.Spawn env b mt config =
        ⟨Except.error err, b, { mt with spawningQueueSize := queueAtReturn env mt },
          [SpawnEvent.QueueInc, SpawnEvent.portoConnect]⟩) ∨
    (∃ profile err, env.ConvertProfile config.Opts = Except.ok profile ∧
      queueCounted env mt ≤ 10 ∧ env.portoConnect = none ∧ env.Acquire = some err ∧
      Box.Spawn env b mt config =
        ⟨Except.error Error.ErrSpawningCancelled, b,
          { mt with spawningQueueSize := int64 (queueAtReturn env mt - 1) },
          [SpawnEvent.QueueInc, SpawnEvent.portoConnect, SpawnEvent.Acquire false,
            SpawnEvent.QueueDec, SpawnEvent.Close]⟩) ∨
    (∃ profile err id, env.ConvertProfile config.Opts = Except.ok profile ∧
      queueCounted env mt ≤ 10 ∧ env.portoConnect = none ∧ env.Acquire = none ∧
      Box.Spawn env b mt config =
        ⟨Except.error err, b,
          { spawningQueueSize := int64 (queueAtReturn env mt - 1),
            containersCreatedCounter := int64 (mt.containersCreatedCounter + 1),
            containersErroredCounter := int64 (mt.containersErroredCounter + 1) },
          [SpawnEvent.QueueInc, SpawnEvent.portoConnect, SpawnEvent.Acquire true,
            SpawnEvent.QueueDec, SpawnEvent.newContainer id false, SpawnEvent.Release,
            SpawnEvent.Close]⟩) ∨
    (∃ profile err id pr, env.ConvertProfile config.Opts = Except.ok profile ∧
      queueCounted env mt ≤ 10 ∧ env.portoConnect = none ∧ env.Acquire = none ∧
      Box.Spawn env b mt config =
        ⟨Except.error err, { b with containers := mapStore b.containers pr.containerID pr },
          { spawningQueueSize := int64 (queueAtReturn env mt - 1),
            containersCreatedCounter := int64 (mt.containersCreatedCounter + 1),
            containersErroredCounter := int64 (mt.containersErroredCounter + 1) },
          [SpawnEvent.QueueInc, SpawnEvent.portoConnect, SpawnEvent.Acquire true,
            SpawnEvent.QueueDec, SpawnEvent.newContainer id true,
            SpawnEvent.start pr.containerID, SpawnEvent.Cleanup pr.containerID,
            SpawnEvent.Release, SpawnEvent.Close]⟩) ∨
    (∃ profile id pr, env.ConvertProfile config.Opts = Except.ok profile ∧
      queueCounted env mt ≤ 10 ∧ env.portoConnect = none ∧ env.Acquire = none ∧
      Box.Spawn env b mt config =
        ⟨Except.ok pr, { b with containers := mapStore b.containers pr.containerID pr },
          { spawningQueueSize := int64 (queueAtReturn env mt - 1),
            containersCreatedCounter := int64 (mt.containersCreatedCounter + 1),
            containersErroredCounter := mt.containersErroredCounter },
          [SpawnEvent.QueueInc, SpawnEvent.portoConnect, SpawnEvent.Acquire true,
            SpawnEvent.QueueDec, SpawnEvent.newContainer id true,
            SpawnEvent.start pr.containerID, SpawnEvent.NotifyAbouStart,
            SpawnEvent.Release, SpawnEvent.Close]⟩) := by
  unfold Box.Spawn
  split
  · rename_i err hc
    exact Or.inl ⟨err, hc, rfl⟩
  · rename_i profile hc
    refine Or.inr ?_
    split
    · rename_i hq
      exact Or.inl ⟨profile, hc, hq, rfl⟩
    · rename_i hq
      refine Or.inr ?_
      have hle : queueCounted env mt ≤ 10 := by omega
      simp only
      split
      · rename_i err hpc
        exact Or.inl ⟨profile, err, hc, hle, hpc, rfl⟩
      · rename_i hpc
        refine Or.inr ?_
        split
        · rename_i err hacq
          exact Or.inl ⟨profile, err, hc, hle, hpc, hacq, rfl⟩
        · rename_i hacq
          refine Or.inr ?_
          split
          · rename_i err hnew
            refine Or.inl ⟨profile, err, (Box.addRootNamespacePrefix env.Join b env.uuidNew), hc, hle, hpc, hacq, ?_⟩
            simp
          · rename_i pr hnew
            refine Or.inr ?_
            split
            · rename_i err hst
              refine Or.inl ⟨profile, err, (Box.addRootNamespacePrefix env.Join b env.uuidNew), pr, hc, hle, hpc, hacq, ?_⟩
              simp
            · rename_i hst
              refine Or.inr ⟨profile, (Box.addRootNamespacePrefix env.Join b env.uuidNew), pr, hc, hle, hpc, hacq, ?_⟩
              simp

theorem acquire_true_split (l pre post : List SpawnEvent)
    (h : SpawnEvent.QueueInc :: SpawnEvent.portoConnect :: SpawnEvent.Acquire true ::
      SpawnEvent.QueueDec :: l = pre ++ SpawnEvent.Acquire true :: post)
    (hl : SpawnEvent.Acquire true ∉ l) : post = SpawnEvent.QueueDec :: l := by
  match pre, h with
  | [], h => simp at h
  | [_], h => simp at h
  | [_, _], h =>
    injection h with _ h
    injection h with _ h
    injection h with _ h
    exact h.symm
  | [_, _, _], h => simp at h
  | _ :: _ :: _ :: _ :: rest, h =>
    simp only [List.cons_append, List.cons.injEq] at h
    exact absurd (h.2.2.2.2 ▸ List.mem_append_right rest (List.mem_cons_self _ _)) hl

theorem acquire_true_not_mem (l pre post : List SpawnEvent)
    (h : l = pre ++ SpawnEvent.Acquire true :: post) (hl : SpawnEvent.Acquire true ∉ l) :
    SpawnEvent.Release ∈ post := by
  exact absurd (h ▸ List.mem_append_right pre (List.mem_cons_self _ _)) hl

/-- C5: for every Spawn call whose profile converts, made while the shared
64-bit gauge is not at the point of overflow, the call returns
`syscall.EAGAIN` without connecting to the backend, calling `Acquire` or
creating a container if and only if, when the call reads the gauge on line
447, the gauge counts at least 10 requests other than this one (its value
before the call plus what concurrent calls added up to that read).  A call
rejected this way makes no other call, leaves the Box and the other metrics
unchanged, and contributes nothing to the gauge: the gauge then holds its
value before the call plus the changes made by the other calls, so the value
before the call when no other call touched it. -/
theorem Spawn_rejects_from_eleventh_waiter (env : SpawnEnv) (b : Box) (mt : Metrics)
    (config : SpawnConfig) (profile : Profile)
    (hconv : env.ConvertProfile config.Opts = Except.ok profile)
    (hlo : -9223372036854775808 ≤ mt.spawningQueueSize + env.othersBeforeCount)
    (hhi : mt.spawningQueueSize + env.othersBeforeCount < 9223372036854775807) :
    (((Box.Spawn env b mt config).result = Except.error Error.EAGAIN ∧
        SpawnEvent.portoConnect ∉ (Box.Spawn env b mt config).events ∧
        (Box.Spawn env b mt config).events.all (fun e => !e.isAcquire) = true ∧
        (Box.Spawn env b mt config).events.all (fun e => !e.isNewContainer) = true) ↔
      10 ≤ mt.spawningQueueSize + env.othersBeforeCount) ∧
    (10 ≤ mt.spawningQueueSize + env.othersBeforeCount →
      (Box.Spawn env b mt config).events = [SpawnEvent.QueueInc, SpawnEvent.QueueDec] ∧
      (Box.Spawn env b mt config).metrics =
        ⟨int64 (mt.spawningQueueSize + env.othersBeforeCount + env.othersAfterCount),
          mt.containersCreatedCounter, mt.containersErroredCounter⟩ ∧
      (Box.Spawn env b mt config).box = b ∧
      (env.othersBeforeCount = 0 → env.othersAfterCount = 0 →
        (Box.Spawn env b mt config).metrics = mt)) := by
  have hcount := queueCounted_eq env mt hlo hhi
  rcases Spawn_exit_paths env b mt config with
    ⟨err, hc, _⟩ | ⟨_, _, hq, hr⟩ | ⟨_, _, _, hq, _, hr⟩ | ⟨_, _, _, hq, _, _, hr⟩ |
    ⟨_, _, _, _, hq, _, _, hr⟩ | ⟨_, _, _, _, _, hq, _, _, hr⟩ | ⟨_, _, _, _, hq, _, _, hr⟩
  · rw [hconv] at hc
    cases hc
  · have h10 : 10 ≤ mt.spawningQueueSize + env.othersBeforeCount := by omega
    rw [hr, queueAtReturn_pred]
    refine ⟨by simp [h10, SpawnEvent.isAcquire, SpawnEvent.isNewContainer], fun _ => ?_⟩
    refine ⟨rfl, rfl, rfl, ?_⟩
    intro h1 h2
    have hself : int64 mt.spawningQueueSize = mt.spawningQueueSize :=
      int64_of_range _ (by omega) (by omega)
    simp [h1, h2, hself]
  all_goals
    have hn : ¬ 10 ≤ mt.spawningQueueSize + env.othersBeforeCount := by omega
    rw [hr]
    simp [hn]

/-- C5, at concrete inputs: with 10 requests counted and no concurrent call,
the call is rejected and the gauge is 10 afterwards; with 9 counted and one
concurrent `Inc(1)` landing before the read, the call is rejected as well and
the gauge is 10 afterwards, the other call's increment; with 9 counted and no
concurrent call it is not rejected. -/
theorem Spawn_rejects_from_eleventh_waiter_witness :
    ((Box.Spawn (sampleSpawnEnv none none none none) (sampleBox false "u") ⟨10, 0, 0⟩
        sampleSpawnConfig).events = [SpawnEvent.QueueInc, SpawnEvent.QueueDec] ∧
      (Box.Spawn (sampleSpawnEnv none none none none) (sampleBox false "u") ⟨10, 0, 0⟩
        sampleSpawnConfig).metrics = ⟨10, 0, 0⟩) ∧
    (Box.Spawn (sampleSpawnEnv none none none none) (sampleBox false "u") ⟨10, 0, 0⟩
        sampleSpawnConfig).result = Except.error Error.EAGAIN ∧
    ((Box.Spawn ((sampleSpawnEnv none none none none).withOthers 1 0) (sampleBox false "u")
        ⟨9, 0, 0⟩ sampleSpawnConfig).result = Except.error Error.EAGAIN ∧
      (Box.Spawn ((sampleSpawnEnv none none none none).withOthers 1 0) (sampleBox false "u")
        ⟨9, 0, 0⟩ sampleSpawnConfig).metrics.spawningQueueSize = 10) ∧
    SpawnEvent.portoConnect ∈ (Box.Spawn (sampleSpawnEnv none none none none)
        (sampleBox false "u") ⟨9, 0, 0⟩ sampleSpawnConfig).events :=
  have quiet := Spawn_rejects_from_eleventh_waiter (sampleSpawnEnv none none none none)
    (sampleBox false "u") ⟨10, 0, 0⟩ sampleSpawnConfig _ rfl (by decide) (by decide)
  have raced := Spawn_rejects_from_eleventh_waiter
    ((sampleSpawnEnv none none none none).withOthers 1 0)
    (sampleBox false "u") ⟨9, 0, 0⟩ sampleSpawnConfig _ rfl (by decide) (by decide)
  ⟨⟨(quiet.2 (by decide)).1, (quiet.2 (by decide)).2.2.2 rfl rfl⟩,
    (quiet.1.2 (by decide)).1,
    ⟨(raced.1.2 (by decide)).1,
      (congrArg Metrics.spawningQueueSize (raced.2 (by decide)).2.1).trans
        (show int64 (9 + 1 + 0) = 10 from by decide)⟩,
    by decide⟩

/-- C7: on every exit path of every Spawn call, the number of `Release` calls
equals the number of successful `Acquire` calls, which is 0 or 1, and the
number of permits held is the same after the call as before it; when `Acquire`
was called and succeeded, `Release` is called after it; when `Acquire` was
called and failed, the call returns `ErrSpawningCancelled`, creates no
container, calls `Release` zero times and leaves the Box unchanged. -/
theorem Spawn_pairs_acquire_release (env : SpawnEnv) (b : Box) (mt : Metrics)
    (config : SpawnConfig) :
    releasedCount (Box.Spawn env b mt config).events =
      acquiredCount (Box.Spawn env b mt config).events ∧
    acquiredCount (Box.Spawn env b mt config).events ≤ 1 ∧
    (Box.Spawn env b mt config).box.spawnSM = b.spawnSM ∧
    (∀ pre post, (Box.Spawn env b mt config).events = pre ++ SpawnEvent.Acquire true :: post →
      SpawnEvent.Release ∈ post) ∧
    (SpawnEvent.Acquire false ∈ (Box.Spawn env b mt config).events →
      (Box.Spawn env b mt config).result = Except.error Error.ErrSpawningCancelled ∧
      (Box.Spawn env b mt config).events.all (fun e => !e.isNewContainer) = true ∧
      releasedCount (Box.Spawn env b mt config).events = 0 ∧
      (Box.Spawn env b mt config).box = b) := by
  rcases Spawn_exit_paths env b mt config with
    ⟨_, _, hr⟩ | ⟨_, _, _, hr⟩ | ⟨_, _, _, _, _, hr⟩ | ⟨_, _, _, _, _, _, hr⟩ |
    ⟨_, _, _, _, _, _, _, hr⟩ | ⟨_, _, _, _, _, _, _, _, hr⟩ | ⟨_, _, _, _, _, _, _, hr⟩
  · rw [hr]
    refine ⟨by simp [releasedCount, acquiredCount], by simp [acquiredCount], rfl, ?_,
      by simp [releasedCount, SpawnEvent.isNewContainer]⟩
    intro pre post h
    exact acquire_true_not_mem _ pre post h (by simp)
  · rw [hr]
    refine ⟨by simp [releasedCount, acquiredCount], by simp [acquiredCount], rfl, ?_,
      by simp [releasedCount, SpawnEvent.isNewContainer]⟩
    intro pre post h
    exact acquire_true_not_mem _ pre post h (by simp)
  · rw [hr]
    refine ⟨by simp [releasedCount, acquiredCount], by simp [acquiredCount], rfl, ?_,
      by simp [releasedCount, SpawnEvent.isNewContainer]⟩
    intro pre post h
    exact acquire_true_not_mem _ pre post h (by simp)
  · rw [hr]
    refine ⟨by simp [releasedCount, acquiredCount], by simp [acquiredCount], rfl, ?_,
      by simp [releasedCount, SpawnEvent.isNewContainer]⟩
    intro pre post h
    exact acquire_true_not_mem _ pre post h (by simp)
  · rw [hr]
    refine ⟨by simp [releasedCount, acquiredCount], by simp [acquiredCount], rfl, ?_,
      by simp [releasedCount, SpawnEvent.isNewContainer]⟩
    intro pre post h
    rw [acquire_true_split _ pre post h (by simp)]
    simp
  · rw [hr]
    refine ⟨by simp [releasedCount, acquiredCount], by simp [acquiredCount], rfl, ?_,
      by simp [releasedCount, SpawnEvent.isNewContainer]⟩
    intro pre post h
    rw [acquire_true_split _ pre post h (by simp)]
    simp
  · rw [hr]
    refine ⟨by simp [releasedCount, acquiredCount], by simp [acquiredCount], rfl, ?_,
      by simp [releasedCount, SpawnEvent.isNewContainer]⟩
    intro pre post h
    rw [acquire_true_split _ pre post h (by simp)]
    simp

/-- C7, at a concrete input: a Spawn whose `Acquire` is cancelled. -/
theorem Spawn_pairs_acquire_release_witness :
    (Box.Spawn (sampleSpawnEnv none (some (Error.other "context canceled")) none none)
        (sampleBox false "u") ⟨0, 0, 0⟩ sampleSpawnConfig).result =
      Except.error Error.ErrSpawningCancelled ∧
    releasedCount (Box.Spawn (sampleSpawnEnv none (some (Error.other "context canceled"))
        none none) (sampleBox false "u") ⟨0, 0, 0⟩ sampleSpawnConfig).events = 0 :=
  have key := (Spawn_pairs_acquire_release
    (sampleSpawnEnv none (some (Error.other "context canceled")) none none)
    (sampleBox false "u") ⟨0, 0, 0⟩ sampleSpawnConfig).2.2.2.2 (by decide)
  ⟨key.1, key.2.2.1⟩

/-- C10: evaluation of `Spawn` where the claim fails.  A call whose
`portoConnect` fails returns after the gauge was incremented and without
decrementing it: the gauge goes from 0 to 1 and the events hold one `QueueInc`
and no `QueueDec`.  After ten such calls the gauge is 10 with nothing waiting,
and an eleventh call, for which every collaborator would succeed, is rejected
with `syscall.EAGAIN`. -/
theorem Spawn_connect_failure_leaks_gauge :
    (Box.Spawn (sampleSpawnEnv (some (Error.other "connection refused")) none none none)
        (sampleBox false "u") ⟨0, 0, 0⟩ sampleSpawnConfig).metrics.spawningQueueSize = 1 ∧
    (Box.Spawn (sampleSpawnEnv (some (Error.other "connection refused")) none none none)
        (sampleBox false "u") ⟨0, 0, 0⟩ sampleSpawnConfig).events =
      [SpawnEvent.QueueInc, SpawnEvent.portoConnect] ∧
    (spawnAll sampleSpawnConfig (sampleBox false "u") ⟨0, 0, 0⟩
        (List.replicate 10
          (sampleSpawnEnv (some (Error.other "connection refused")) none none none) ++
          [sampleSpawnEnv none none none none])).map
        (fun r => (r.isEAGAIN, r.metrics.spawningQueueSize)) =
      [(false, 1), (false, 2), (false, 3), (false, 4), (false, 5), (false, 6), (false, 7),
        (false, 8), (false, 9), (false, 10), (true, 10)] := by
  decide

/-! ### Theorems on Spool -/

theorem spoolResolve_events (env : SpoolEnv) (b : Box) (name opts : String) (err : Error)
    (evs : List SpoolEvent) (h : spoolResolve env b name opts = Except.error (err, evs)) :
    evs.all (fun e => !e.pastCacheCheck) = true := by
  unfold spoolResolve at h
  cases hc : env.ConvertProfile opts with
  | error e =>
    simp only [hc, Except.error.injEq, Prod.mk.injEq] at h
    rw [← h.2]; decide
  | ok profile =>
    simp only [hc] at h
    by_cases hreg : profile.Registry = ""
    · simp only [hreg, if_true, Except.error.injEq, Prod.mk.injEq] at h
      rw [← h.2]; decide
    · simp only [hreg, if_false] at h
      cases hpc : env.portoConnect with
      | some e =>
        simp only [hpc, Except.error.injEq, Prod.mk.injEq] at h
        rw [← h.2]; decide
      | none =>
        simp only [hpc] at h
        cases hpn : env.ParseNamed (env.Join [profile.Repository, profile.Repository, name]) with
        | some e =>
          simp only [hpn, Except.error.injEq, Prod.mk.injEq] at h
          rw [← h.2]; decide
        | none =>
          simp only [hpn] at h
          cases hnr : env.NewRepository
              (if hasHttpScheme profile.Registry then profile.Registry
                else "https://" ++ profile.Registry)
              (b.config.RegistryAuth profile.Registry) with
          | some e =>
            simp only [hnr, Except.error.injEq, Prod.mk.injEq] at h
            rw [← h.2]; decide
          | none =>
            simp only [hnr] at h
            cases htg : env.TagsGet with
            | error e =>
              simp only [htg, Except.error.injEq, Prod.mk.injEq] at h
              rw [← h.2]; decide
            | ok d =>
              simp only [htg] at h
              cases h

theorem journal_In_Insert (j : journal) (layer digest : String) :
    (j.Insert layer digest).In layer digest = true := by
  simp [journal.In, journal.Insert, mapStore]

theorem spoolImport_success (env : SpoolEnv) (b : Box) (layerName digest : String)
    (manifest : Manifest) (pre2 : List SpoolEvent)
    (h : (spoolImport env b layerName digest manifest pre2).err = none) :
    (spoolImport env b layerName digest manifest pre2).journal =
      b.journal.Insert layerName digest := by
  unfold spoolImport at h ⊢
  cases manifest with
  | schema1 refs =>
    simp only at h ⊢
    rcases hi : importLayers env layerName (env.layerOrderV1 refs) with ⟨e, evs⟩
    rw [hi] at h
    cases e with
    | none => rfl
    | some e => simp at h
  | schema2 refs =>
    simp only at h ⊢
    rcases hi : importLayers env layerName (env.layerOrderV2 refs) with ⟨e, evs⟩
    rw [hi] at h
    cases e with
    | none => rfl
    | some e => simp at h
  | unknown refs => simp at h

theorem spoolMiss_success (env : SpoolEnv) (b : Box) (layerName digest : String)
    (pre : List SpoolEvent) (h : (spoolMiss env b layerName digest pre).err = none) :
    (spoolMiss env b layerName digest pre).journal = b.journal.Insert layerName digest := by
  unfold spoolMiss at h ⊢
  cases hm : env.Manifests with
  | some e => simp [hm] at h
  | none =>
    simp only [hm] at h ⊢
    cases hg : env.ManifestsGet digest with
    | error e => simp [hg] at h
    | ok manifest =>
      simp only [hg] at h ⊢
      cases hrm : env.RemoveLayer layerName with
      | none =>
        simp only [hrm] at h ⊢
        exact spoolImport_success env b layerName digest manifest _ h
      | some e =>
        simp only [hrm] at h ⊢
        by_cases he : e = Error.LayerNotFound
        · simp only [he, ne_eq, not_true_eq_false, if_false] at h ⊢
          exact spoolImport_success env b layerName digest manifest _ h
        · simp [he] at h

theorem Spool_of_hit (env : SpoolEnv) (b : Box) (name opts digest : String)
    (hres : spoolResolve env b name opts = Except.ok digest)
    (hin : b.journal.In (b.appLayerName name) digest = true) :
    Box.Spool env b name opts =
      ⟨none, b.journal, [SpoolEvent.portoConnect, SpoolEvent.TagsGet]⟩ := by
  unfold Box.Spool
  simp [hres, hin]

theorem Spool_success_journal (env : SpoolEnv) (b : Box) (name opts digest : String)
    (hres : spoolResolve env b name opts = Except.ok digest)
    (hok : (Box.Spool env b name opts).err = none) :
    (Box.Spool env b name opts).journal.In (b.appLayerName name) digest = true ∧
    (Box.Spool env b name opts).journal.UUID = b.journal.UUID := by
  cases hin : b.journal.In (b.appLayerName name) digest with
  | true =>
    rw [Spool_of_hit env b name opts digest hres hin]
    exact ⟨hin, rfl⟩
  | false =>
    have hstep : Box.Spool env b name opts =
        spoolMiss env b (b.appLayerName name) digest
          [SpoolEvent.portoConnect, SpoolEvent.TagsGet] := by
      unfold Box.Spool
      simp [hres, hin]
    rw [hstep] at hok ⊢
    rw [spoolMiss_success env b _ digest _ hok]
    exact ⟨journal_In_Insert _ _ _, rfl⟩

theorem appLayerName_congr (b1 b2 : Box) (name : String) (hc : b1.config = b2.config)
    (hu : b1.journal.UUID = b2.journal.UUID) : b1.appLayerName name = b2.appLayerName name := by
  simp only [Box.appLayerName, hc, hu]

/-- C8: for every image name whose tag resolves to a digest: if the Journal
maps the cache key `appLayerName(name)` to that digest, `Spool` returns nil
having made no call after the tag resolution (no manifest fetch, no blob
fetch, no `RemoveLayer`, no `ImportLayer`) and leaves the Journal as it was;
and after a `Spool` call that returned nil the Journal maps the key to the
digest, so that any later `Spool` of the same name on that Box, while the tag
still resolves to the same digest, makes none of those calls either, keeps
the Journal, and returns nil when the tag resolves. -/
theorem Spool_cache_hit_skips_import (env : SpoolEnv) (b : Box) (name opts digest : String)
    (hres : spoolResolve env b name opts = Except.ok digest) :
    (b.journal.In (b.appLayerName name) digest = true →
      Box.Spool env b name opts =
        ⟨none, b.journal, [SpoolEvent.portoConnect, SpoolEvent.TagsGet]⟩) ∧
    ((Box.Spool env b name opts).err = none →
      (Box.Spool env b name opts).journal.In (b.appLayerName name) digest = true ∧
      ∀ (env2 : SpoolEnv) (opts2 : String),
        (∀ d, spoolResolve env2 { b with journal := (Box.Spool env b name opts).journal }
            name opts2 = Except.ok d → d = digest) →
        (Box.Spool env2 { b with journal := (Box.Spool env b name opts).journal }
            name opts2).events.all (fun e => !e.pastCacheCheck) = true ∧
        (Box.Spool env2 { b with journal := (Box.Spool env b name opts).journal }
            name opts2).journal = (Box.Spool env b name opts).journal ∧
        (spoolResolve env2 { b with journal := (Box.Spool env b name opts).journal }
            name opts2 = Except.ok digest →
          (Box.Spool env2 { b with journal := (Box.Spool env b name opts).journal }
            name opts2).err = none)) := by
  refine ⟨Spool_of_hit env b name opts digest hres, ?_⟩
  intro hok
  obtain ⟨hin, huuid⟩ := Spool_success_journal env b name opts digest hres hok
  refine ⟨hin, ?_⟩
  intro env2 opts2 hsame
  generalize (Box.Spool env b name opts).journal = j at hin huuid hsame ⊢
  have hkey : ({ b with journal := j } : Box).appLayerName name = b.appLayerName name :=
    appLayerName_congr _ _ name rfl huuid
  cases hres2 : spoolResolve env2 { b with journal := j } name opts2 with
  | error p =>
    obtain ⟨err, evs⟩ := p
    have hev := spoolResolve_events env2 _ name opts2 err evs hres2
    have hstep : Box.Spool env2 { b with journal := j } name opts2 = ⟨some err, j, evs⟩ := by
      unfold Box.Spool
      simp [hres2]
    rw [hstep]
    exact ⟨hev, rfl, fun h => by cases h⟩
  | ok d =>
    have hd : d = digest := hsame d hres2
    subst hd
    have hin2 : ({ b with journal := j } : Box).journal.In
        (({ b with journal := j } : Box).appLayerName name) d = true := by
      rw [hkey]; exact hin
    rw [Spool_of_hit env2 _ name opts2 d hres2 hin2]
    exact ⟨rfl, rfl, fun _ => rfl⟩

/-- C8, at a concrete input: the image `app:v1` resolves to `sha256:d1` on a
Box whose Journal is empty; the first `Spool` imports two layers and returns
nil, the second one makes no call after the tag resolution. -/
theorem Spool_cache_hit_skips_import_witness :
    (Box.Spool (sampleSpoolEnv "sha256:d1") (sampleBox false "u") "app:v1" "profile").events =
      [SpoolEvent.portoConnect, SpoolEvent.TagsGet, SpoolEvent.Manifests,
        SpoolEvent.ManifestsGet "sha256:d1", SpoolEvent.RemoveLayer "uapp_v1",
        SpoolEvent.BlobGet "sha256:l1", SpoolEvent.ImportLayer "uapp_v1" "/var/layers/sha256:l1",
        SpoolEvent.BlobGet "sha256:l2",
        SpoolEvent.ImportLayer "uapp_v1" "/var/layers/sha256:l2"] ∧
    (Box.Spool (sampleSpoolEnv "sha256:d1")
      { sampleBox false "u" with
        journal := (Box.Spool (sampleSpoolEnv "sha256:d1") (sampleBox false "u")
          "app:v1" "profile").journal }
      "app:v1" "profile").events.all (fun e => !e.pastCacheCheck) = true ∧
    (Box.Spool (sampleSpoolEnv "sha256:d1")
      { sampleBox false "u" with
        journal := (Box.Spool (sampleSpoolEnv "sha256:d1") (sampleBox false "u")
          "app:v1" "profile").journal }
      "app:v1" "profile").err = none :=
  have key := ((Spool_cache_hit_skips_import (sampleSpoolEnv "sha256:d1") (sampleBox false "u")
    "app:v1" "profile" "sha256:d1" rfl).2 (by decide)).2
      (sampleSpoolEnv "sha256:d1") "profile"
      (fun d hd => (Except.ok.inj ((rfl :
        spoolResolve (sampleSpoolEnv "sha256:d1")
          { sampleBox false "u" with
            journal := (Box.Spool (sampleSpoolEnv "sha256:d1") (sampleBox false "u")
              "app:v1" "profile").journal }
          "app:v1" "profile" = Except.ok "sha256:d1").symm.trans hd)).symm)
  ⟨by decide, key.1, key.2.2 rfl⟩

end Stout
